import Mathlib

/-!
Verification development for the pypostgres repository.

The repository wraps a PostgreSQL driver (psycopg2): the `PostgresManager`
facade (src/src/postgres_manager.py) owns one connection and funnels most
operations through an internal execution primitive `_execute_query`; the
reader registry (src/src/readers.py) maps file extensions to parser
capabilities.

The shallow embedding below models each facade operation as a pure function
of the connection state (`Conn`, present or absent), an abstract driver
oracle (`Driver`, deciding what each statement execution returns), and the
operation arguments.  Each operation returns an `Except` value mirroring
the Python return-or-raise behavior, paired with the ordered list of
driver-level events it performed (statement executions, commits, rollbacks,
resource closes), so that transaction-discipline properties are statements
about the event trace.

Python string operations used by the code (`str.strip`, `str.split`,
`str.upper`, `str.lower`, `str.startswith`) are embedded as structurally
recursive functions over the character data so that they evaluate inside
the kernel.
-/

namespace Pypostgres

/-- Characters of the Python `str.strip` default whitespace set. -/
def pyIsSpace (c : Char) : Bool :=
  c = ' ' || c = '\t' || c = '\n' || c = '\r' || c = '\x0b' || c = '\x0c'

/-- Model of Python `str.strip()`: drop leading and trailing whitespace. -/
def pyTrim (s : String) : String :=
  ⟨((s.data.dropWhile pyIsSpace).reverse.dropWhile pyIsSpace).reverse⟩

/-- Worker for `pySplit`: accumulates the current fragment (reversed). -/
def pySplitAux (sep : Char) : List Char → List Char → List (List Char)
  | acc, [] => [acc.reverse]
  | acc, c :: cs =>
    if c = sep then acc.reverse :: pySplitAux sep [] cs
    else pySplitAux sep (c :: acc) cs

/-- Model of Python `str.split(sep)` for a one-character separator:
splits at every occurrence, keeping empty fragments. -/
def pySplit (sep : Char) (s : String) : List String :=
  (pySplitAux sep [] s.data).map (fun l => ⟨l⟩)

/-- Model of Python `str.upper()` (ASCII case mapping). -/
def pyUpper (s : String) : String := ⟨s.data.map Char.toUpper⟩

/-- Model of Python `str.lower()` (ASCII case mapping). -/
def pyLower (s : String) : String := ⟨s.data.map Char.toLower⟩

/-- Model of Python `str.startswith(p)`: literal prefix match. -/
def pyStartsWith (s p : String) : Bool := p.data.isPrefixOf s.data

/-- A Python scalar value as it appears in rows and query parameters. -/
inductive PyVal where
  | str (s : String)
  | int (n : Int)
  | bool (b : Bool)
  | null
  deriving DecidableEq, Repr

/-- A positional result row (a Python tuple from the driver cursor). -/
abbrev Row := List PyVal

/-- A Python dict row: ordered association list from column name to value,
matching dict insertion order. -/
abbrev PyRow := List (String × PyVal)

/-- The Python exception kinds the embedded code can raise.
`dbError` stands for `psycopg2.Error` (the code raises
`Error("Not connected to database")` for the not-connected case, so that
error kind is a `dbError` with this fixed message). -/
inductive PyErr where
  | dbError (msg : String)
  | attrError (msg : String)
  | keyError (key : String)
  | valueError (msg : String)
  | typeError (msg : String)
  | indexError (msg : String)
  deriving DecidableEq, Repr

/-- Message of the error `_execute_query` raises with no open connection
(postgres_manager.py line 117). -/
def notConnectedMsg : String := "Not connected to database"

/-- Message of the AttributeError Python raises for `None.cursor()`
(hit by `update`, `delete` and `insert_batch` when no connection is open). -/
def cursorAttrMsg : String := "NoneType object has no attribute cursor"

/-- Driver-level events an operation performs, in order. -/
inductive Event where
  | execute (sql : String) (params : List PyVal)
  | executeMany (sql : String) (paramSets : List (List PyVal))
  | commit
  | rollback
  | closeCursor
  | closeConn
  deriving DecidableEq, Repr

/-- The shape of an event, forgetting its payload. -/
inductive EventTag where
  | execute
  | executeMany
  | commit
  | rollback
  | closeCursor
  | closeConn
  deriving DecidableEq, Repr

/-- Project an event to its shape. -/
def Event.tag : Event → EventTag
  | .execute _ _ => .execute
  | .executeMany _ _ => .executeMany
  | .commit => .commit
  | .rollback => .rollback
  | .closeCursor => .closeCursor
  | .closeConn => .closeConn

/-- What the database reports for one successfully executed statement:
the fetchable rows, the cursor description column names, and the affected
row count. -/
structure ExecOk where
  rows : List Row
  description : List String
  rowcount : Int
  deriving DecidableEq, Repr

/-- Abstract driver oracle: decides the outcome of every `cursor.execute`
and `cursor.executemany` call.  An `Except.error` models a `psycopg2.Error`
raised during execution, carrying its message. -/
structure Driver where
  exec : String → List PyVal → Except String ExecOk
  execMany : String → List (List PyVal) → Except String Unit

/-- The facade connection attribute: `none` models `self.connection is None`
(never connected), `some ()` an open connection. -/
abbrev Conn := Option Unit

/-- A psycopg2 cursor as far as its `description` attribute is concerned:
`description` is `None` until an execute call has run on that same cursor. -/
structure Cursor where
  description : Option (List String)

/-- `connection.cursor()`: a freshly created cursor, on which nothing has
been executed yet, so its `description` is `None`. -/
def newCursor (_ : Unit) : Cursor := ⟨Option.none⟩

/-- What `_execute_query` returns on success: all rows (`fetch=True`), the
first row or `None` (`fetch_one=True`), or Python `None`. -/
inductive FetchRet where
  | all (rows : List Row)
  | one (row : Option Row)
  | noneV
  deriving DecidableEq, Repr

/-- `SQLReader.read` (readers.py lines 78-101), with the file content given
directly: split on the semicolon character, strip each fragment, drop the
fragments that are empty after stripping
(`[stmt.strip() for stmt in content.split(";") if stmt.strip()]`). -/
def SQLReader.read (content : String) : List String :=
  (pySplit (Char.ofNat 59) content).filterMap
    (fun stmt => if pyTrim stmt = "" then Option.none else some (pyTrim stmt))

/-- The reader capabilities of the registry. -/
inductive ReaderKind where
  | csv
  | json
  | sqlReader
  | pdf
  | excel
  deriving DecidableEq, Repr

/-- `ReaderFactory._readers` (readers.py lines 176-183): the
extension-to-reader table, in source order. -/
def readersMap : List (String × ReaderKind) :=
  [(".csv", .csv), (".json", .json), (".sql", .sqlReader),
   (".pdf", .pdf), (".xlsx", .excel), (".xls", .excel)]

/-- The supported extensions, in table order. -/
def supportedExts : List String := readersMap.map Prod.fst

/-- Python `repr` of a list of strings, as interpolated into the
unsupported-format error message by `f"...{list(ReaderFactory._readers.keys())}"`. -/
def pyListRepr (l : List String) : String :=
  "[" ++ String.intercalate ", " (l.map (fun s => "\x27" ++ s ++ "\x27")) ++ "]"

/-- The `ValueError` message of `ReaderFactory.get_reader` for an
unsupported extension (readers.py lines 203-206). -/
def unsupportedMsg (ext : String) : String :=
  "Unsupported file format: " ++ ext ++ ". Supported formats: " ++ pyListRepr supportedExts

/-- `ReaderFactory.get_reader` (readers.py lines 185-208), with the
already-extracted file suffix given as `ext`: lowercase it, look it up in
the reader table, and raise `ValueError` listing the supported formats when
absent. -/
def get_reader (ext : String) : Except PyErr ReaderKind :=
  match readersMap.lookup (pyLower ext) with
  | some r => .ok r
  | Option.none => .error (.valueError (unsupportedMsg (pyLower ext)))

namespace PostgresManager

/-- `PostgresManager._execute_query` (postgres_manager.py lines 90-142).
With no connection it raises `Error("Not connected to database")`, which
its own handler re-raises without rollback (the connection test there is
false) and without any cursor to close.  Otherwise it opens a cursor and
executes; on a driver error it rolls back, re-raises, and the `finally`
closes the cursor; on success it returns all rows when `fetch`, the first
row when `fetchOne` (both without committing), and otherwise commits when
`commit` before returning `None`. -/
def execute_query (conn : Conn) (d : Driver) (q : String) (params : List PyVal)
    (fetch fetchOne commit : Bool) : Except PyErr FetchRet × List Event :=
  match conn with
  | Option.none => (.error (.dbError notConnectedMsg), [])
  | some _ =>
    match d.exec q params with
    | .error msg => (.error (.dbError msg), [.execute q params, .rollback, .closeCursor])
    | .ok res =>
      if fetch then (.ok (.all res.rows), [.execute q params, .closeCursor])
      else if fetchOne then (.ok (.one res.rows.head?), [.execute q params, .closeCursor])
      else if commit then (.ok .noneV, [.execute q params, .commit, .closeCursor])
      else (.ok .noneV, [.execute q params, .closeCursor])

/-- The `", ".join(["%s"] * len(columns))` placeholder list. -/
def placeholdersFor (columns : List String) : String :=
  String.intercalate ", " (columns.map (fun _ => "%s"))

/-- The CREATE TABLE statement built by `create_table` (lines 172-183):
one clause per column in mapping order, `PRIMARY KEY` appended to the one
clause whose name equals a truthy `primary_key`. -/
def create_table_query (table : String) (columns : List (String × String))
    (primaryKey : Option String) (ifNotExists : Bool) : String :=
  let columnDefs := columns.map (fun kv =>
    let colDef := kv.1 ++ " " ++ kv.2
    match primaryKey with
    | some pk => if pk ≠ "" ∧ kv.1 = pk then colDef ++ " PRIMARY KEY" else colDef
    | Option.none => colDef)
  let columnsStr := String.intercalate ", " columnDefs
  let ifNotExistsStr := if ifNotExists then "IF NOT EXISTS" else ""
  "CREATE TABLE " ++ ifNotExistsStr ++ " " ++ table ++ " (" ++ columnsStr ++ ")"

/-- `PostgresManager.create_table` (lines 144-191): build the statement and
run it through the execution primitive with commit. -/
def create_table (conn : Conn) (d : Driver) (table : String)
    (columns : List (String × String)) (primaryKey : Option String)
    (ifNotExists : Bool) : Except PyErr Bool × List Event :=
  match execute_query conn d (create_table_query table columns primaryKey ifNotExists)
      [] false false true with
  | (.error e, evs) => (.error e, evs)
  | (.ok _, evs) => (.ok true, evs)

/-- The DROP TABLE statement built by `drop_table` (lines 205-206). -/
def drop_table_query (table : String) (ifExists : Bool) : String :=
  "DROP TABLE " ++ (if ifExists then "IF EXISTS" else "") ++ " " ++ table

/-- `PostgresManager.drop_table` (lines 193-213). -/
def drop_table (conn : Conn) (d : Driver) (table : String) (ifExists : Bool) :
    Except PyErr Bool × List Event :=
  match execute_query conn d (drop_table_query table ifExists) [] false false true with
  | (.error e, evs) => (.error e, evs)
  | (.ok _, evs) => (.ok true, evs)

/-- The INSERT statement built by `insert` (lines 237-244), with
` RETURNING id` appended when `return_id`. -/
def insert_query (table : String) (data : PyRow) (returnId : Bool) : String :=
  let columns := data.map Prod.fst
  let base := "INSERT INTO " ++ table ++ " (" ++ String.intercalate ", " columns
    ++ ") VALUES (" ++ placeholdersFor columns ++ ")"
  if returnId then base ++ " RETURNING id" else base

/-- `PostgresManager.insert` (lines 215-259): runs the statement through the
execution primitive with `fetch_one=return_id, commit=True`; when
`return_id` and the fetched result is truthy (a non-empty tuple), returns
its first component, else `None`. -/
def insert (conn : Conn) (d : Driver) (table : String) (data : PyRow)
    (returnId : Bool) : Except PyErr (Option PyVal) × List Event :=
  match execute_query conn d (insert_query table data returnId)
      (data.map Prod.snd) false returnId true with
  | (.error e, evs) => (.error e, evs)
  | (.ok ret, evs) =>
    match ret with
    | .one (some row) =>
      if returnId ∧ row ≠ [] then (.ok row.head?, evs) else (.ok Option.none, evs)
    | _ => (.ok Option.none, evs)

/-- The default batch size, `MAX_BATCH_SIZE` from config/settings.py
(environment default 1000); used by `insert_batch` when no batch size is
passed. -/
def MAX_BATCH_SIZE : Nat := 1000

/-- Python dict item access `row[col]`: the value at the key, or a
`KeyError` when the key is absent. -/
def dictLookup (row : PyRow) (k : String) : Except PyErr PyVal :=
  match row.lookup k with
  | some v => .ok v
  | Option.none => .error (.keyError k)

/-- One parameter tuple of `insert_batch`:
`tuple(row[col] for col in columns)` (line 305). -/
def rowTuple (columns : List String) (row : PyRow) : Except PyErr (List PyVal) :=
  columns.mapM (dictLookup row)

/-- The whole `values` list of one chunk (line 305); a missing key raises
before any value list is handed to the driver. -/
def batchValues (columns : List String) (batch : List PyRow) :
    Except PyErr (List (List PyVal)) :=
  batch.mapM (rowTuple columns)

/-- The multi-row INSERT statement of one `insert_batch` chunk (line 302),
built from the given column list. -/
def insert_batch_query (table : String) (columns : List String) : String :=
  "INSERT INTO " ++ table ++ " (" ++ String.intercalate ", " columns
    ++ ") VALUES (" ++ placeholdersFor columns ++ ")"

/-- The chunk loop of `insert_batch` (lines 295-313), one call per
`range(0, len(data_list), batch_size)` index: the chunk is the next
`batch_size` rows, its column list is recomputed from the chunk's own
first row, the value tuples are built (a missing key raises here, before
`executemany`), then `executemany` runs (a driver error propagates with no
rollback and no cursor close), the connection commits, the cursor closes,
and the chunk length is added to the running total.  A zero step raises
`ValueError` from `range` itself. -/
def insert_batch_go (d : Driver) (table : String) :
    (bs : Nat) → (rows : List PyRow) → Except PyErr Nat × List Event
  | _, [] => (.ok 0, [])
  | 0, _ :: _ => (.error (.valueError "range() arg 3 must not be zero"), [])
  | b + 1, r :: rs =>
    let batch := r :: rs.take b
    let columns := r.map Prod.fst
    let q := insert_batch_query table columns
    match batchValues columns batch with
    | .error e => (.error e, [])
    | .ok vals =>
      match d.execMany q vals with
      | .error msg => (.error (.dbError msg), [.executeMany q vals])
      | .ok _ =>
        match insert_batch_go d table (b + 1) (rs.drop b) with
        | (.error e, evs) =>
          (.error e, .executeMany q vals :: .commit :: .closeCursor :: evs)
        | (.ok n, evs) =>
          (.ok (batch.length + n), .executeMany q vals :: .commit :: .closeCursor :: evs)
termination_by _ rows => rows.length
decreasing_by simp [List.length_drop]; omega

/-- `PostgresManager.insert_batch` (lines 261-322): an empty list returns 0
at once (before any connection use); otherwise the chunk loop runs.  The
loop body calls `self.connection.cursor()` directly, so with no open
connection it raises an AttributeError on `None`, not the primitive's
not-connected error. -/
def insert_batch (conn : Conn) (d : Driver) (table : String)
    (dataList : List PyRow) (batchSize : Nat) : Except PyErr Nat × List Event :=
  if dataList.isEmpty then (.ok 0, [])
  else if batchSize = 0 then
    (.error (.valueError "range() arg 3 must not be zero"), [])
  else
    match conn with
    | Option.none => (.error (.attrError cursorAttrMsg), [])
    | some _ => insert_batch_go d table batchSize dataList

/-- The UPDATE statement built by `update` (lines 352-357). -/
def update_query (table : String) (data : PyRow) (whereClause : String) : String :=
  let setClause := String.intercalate ", " (data.map (fun kv => kv.1 ++ " = %s"))
  "UPDATE " ++ table ++ " SET " ++ setClause ++ " WHERE " ++ whereClause

/-- `PostgresManager.update` (lines 324-370): builds the statement, then
uses its own cursor directly — `self.connection.cursor()` raises an
AttributeError when no connection is open, and a driver error is logged
and re-raised with no rollback and no cursor close.  On success: commit,
read `rowcount`, close the cursor. -/
def update (conn : Conn) (d : Driver) (table : String) (data : PyRow)
    (whereClause : String) (whereParams : List PyVal) :
    Except PyErr Int × List Event :=
  let values := data.map Prod.snd ++ whereParams
  let q := update_query table data whereClause
  match conn with
  | Option.none => (.error (.attrError cursorAttrMsg), [])
  | some _ =>
    match d.exec q values with
    | .error msg => (.error (.dbError msg), [.execute q values])
    | .ok res => (.ok res.rowcount, [.execute q values, .commit, .closeCursor])

/-- `PostgresManager.delete` (lines 372-406): same direct-cursor pattern as
`update`, with the caller's where-parameters passed through. -/
def delete (conn : Conn) (d : Driver) (table : String) (whereClause : String)
    (whereParams : List PyVal) : Except PyErr Int × List Event :=
  let q := "DELETE FROM " ++ table ++ " WHERE " ++ whereClause
  match conn with
  | Option.none => (.error (.attrError cursorAttrMsg), [])
  | some _ =>
    match d.exec q whereParams with
    | .error msg => (.error (.dbError msg), [.execute q whereParams])
    | .ok res => (.ok res.rowcount, [.execute q whereParams, .commit, .closeCursor])

/-- The named-column table structure (`pandas.DataFrame`) as far as this
code is concerned: column names paired with the rows. -/
structure DataFrame where
  columns : List String
  rows : List Row
  deriving DecidableEq, Repr

/-- `PostgresManager.query` (lines 408-444): fetch-all through the
execution primitive without commit.  With `return_df` and a truthy result
list, the code computes the column names by iterating
`self.connection.cursor().description` — the description of a freshly
created cursor, which is `None`, so this raises a TypeError; with an empty
result it builds an empty DataFrame with an empty column list.  Without
`return_df` it returns `results or []`, the raw row tuples. -/
def query (conn : Conn) (d : Driver) (queryStr : String) (params : List PyVal)
    (returnDf : Bool) : Except PyErr (List Row ⊕ DataFrame) × List Event :=
  match execute_query conn d queryStr params true false false with
  | (.error e, evs) => (.error e, evs)
  | (.ok ret, evs) =>
    let results := match ret with | .all rs => rs | _ => []
    if returnDf then
      if results.isEmpty then (.ok (.inr ⟨[], results⟩), evs)
      else
        match (newCursor ()).description with
        | Option.none => (.error (.typeError "NoneType object is not iterable"), evs)
        | some descs => (.ok (.inr ⟨descs, results⟩), evs)
    else (.ok (.inl results), evs)

/-- The statement loop of `execute_from_sql_file` (lines 463-470), carrying
the running last-SELECT result: a statement whose uppercased text starts
with `SELECT` is fetched without commit and replaces the accumulator, any
other statement is executed with commit; any error propagates at once. -/
def sql_file_loop (conn : Conn) (d : Driver) :
    List String → Option (List Row) → Except PyErr (Option (List Row)) × List Event
  | [], acc => (.ok acc, [])
  | s :: rest, acc =>
    if pyStartsWith (pyUpper s) "SELECT" then
      match execute_query conn d s [] true false false with
      | (.error e, evs) => (.error e, evs)
      | (.ok ret, evs) =>
        let rows := match ret with | FetchRet.all rs => rs | _ => []
        let next := sql_file_loop conn d rest (some rows)
        (next.1, evs ++ next.2)
    else
      match execute_query conn d s [] false false true with
      | (.error e, evs) => (.error e, evs)
      | (.ok _, evs) =>
        let next := sql_file_loop conn d rest acc
        (next.1, evs ++ next.2)

/-- `PostgresManager.execute_from_sql_file` (lines 446-477), with the file
content given directly: split the content with `SQLReader`, run the
statement loop from an empty accumulator, and return `results or []`. -/
def execute_from_sql_file (conn : Conn) (d : Driver) (content : String) :
    Except PyErr (List Row) × List Event :=
  match sql_file_loop conn d (SQLReader.read content) Option.none with
  | (.error e, evs) => (.error e, evs)
  | (.ok acc, evs) => (.ok (acc.getD []), evs)

/-- The catalog statement of `table_exists` (lines 640-645). -/
def table_exists_query : String :=
  "\n                SELECT EXISTS (\n                    SELECT 1 FROM information_schema.tables \n                    WHERE table_name = %s\n                )\n            "

/-- `PostgresManager.table_exists` (lines 629-655): fetch-one through the
execution primitive without commit; `result[0] if result else False`. -/
def table_exists (conn : Conn) (d : Driver) (table : String) :
    Except PyErr PyVal × List Event :=
  match execute_query conn d table_exists_query [PyVal.str table] false true false with
  | (.error e, evs) => (.error e, evs)
  | (.ok ret, evs) =>
    match ret with
    | .one (some (v :: _)) => (.ok v, evs)
    | _ => (.ok (PyVal.bool false), evs)

/-- The catalog statement of `get_table_columns` (lines 671-676). -/
def get_table_columns_query : String :=
  "\n                SELECT column_name, data_type, is_nullable\n                FROM information_schema.columns\n                WHERE table_name = %s\n                ORDER BY ordinal_position\n            "

/-- One column descriptor dict built by `get_table_columns`. -/
structure ColumnInfo where
  name : PyVal
  dataType : PyVal
  nullable : Bool
  deriving DecidableEq, Repr

/-- Python tuple indexing `row[i]`. -/
def pyIndex (row : Row) (i : Nat) : Except PyErr PyVal :=
  match row.get? i with
  | some v => .ok v
  | Option.none => .error (.indexError "tuple index out of range")

/-- `PostgresManager.get_table_columns` (lines 657-695): fetch-all through
the execution primitive without commit, then build one descriptor per row
from its first three components, `nullable` being `row[2] == "YES"`. -/
def get_table_columns (conn : Conn) (d : Driver) (table : String) :
    Except PyErr (List ColumnInfo) × List Event :=
  match execute_query conn d get_table_columns_query [PyVal.str table] true false false with
  | (.error e, evs) => (.error e, evs)
  | (.ok ret, evs) =>
    let results := match ret with | FetchRet.all rs => rs | _ => []
    match results.mapM (fun row => do
        let n ← pyIndex row 0
        let t ← pyIndex row 1
        let nl ← pyIndex row 2
        pure (ColumnInfo.mk n t (nl == PyVal.str "YES"))) with
    | .error e => (.error e, evs)
    | .ok cols => (.ok cols, evs)

/-- `PostgresManager.disconnect` (lines 74-88): when a connection is open,
close it and return `True`; when `self.connection` is `None` the body falls
through and the function returns Python `None` (modelled as `Option.none`),
not `False`. -/
def disconnect (conn : Conn) : Option Bool × List Event :=
  match conn with
  | some _ => (some true, [Event.closeConn])
  | Option.none => (Option.none, [])

end PostgresManager

/-! Specification-side definitions used to state the claims. -/

/-- The partition of a list into consecutive chunks of size `bs`
(`ceil (length / bs)` chunks for `bs ≥ 1`). -/
def chunksList (bs : Nat) : List α → List (List α)
  | [] => []
  | x :: xs =>
    match bs with
    | 0 => []
    | b + 1 => (x :: xs.take b) :: chunksList bs (xs.drop b)
termination_by l => l.length
decreasing_by simp [List.length_drop]; omega

/-- The column list `insert_batch` derives for a chunk: the keys of the
chunk's own first row. -/
def chunkColumns (c : List PyRow) : List String := c.headI.map Prod.fst

/-- The value lists `insert_batch` hands to `executemany` for a chunk,
defaulting to `[]` on a key error (the default is never reached in the
contexts where this is used). -/
def chunkValsD (c : List PyRow) : List (List PyVal) :=
  match PostgresManager.batchValues (chunkColumns c) c with
  | .ok v => v
  | .error _ => []

/-- The events one successful `insert_batch` chunk produces. -/
def chunkEvents (table : String) (c : List PyRow) : List Event :=
  [.executeMany (PostgresManager.insert_batch_query table (chunkColumns c)) (chunkValsD c),
   .commit, .closeCursor]

/-- A driver on which every execution fails with the message `boom`. -/
def failDriver : Driver :=
  ⟨fun _ _ => .error "boom", fun _ _ => .error "boom"⟩

/-- A driver on which every execution succeeds: `exec` reports one row
holding the statement text (so results identify the statement that
produced them) with column names `a, b` and row count 1, and `execMany`
succeeds. -/
def echoDriver : Driver :=
  ⟨fun q _ => .ok ⟨[[PyVal.str q]], ["a", "b"], 1⟩, fun _ _ => .ok ()⟩

/-- The `ExecOk` value `echoDriver` reports for a statement. -/
def echoOk (q : String) : ExecOk := ⟨[[PyVal.str q]], ["a", "b"], 1⟩

/-- A driver whose statements report one two-column row, for exercising
the `return_df` path of `query`. -/
def twoColDriver : Driver :=
  ⟨fun _ _ => .ok ⟨[[PyVal.int 1, PyVal.int 2]], ["a", "b"], 1⟩, fun _ _ => .ok ()⟩

/-- A driver whose statements report a single generated-id row `(7,)`. -/
def idDriver : Driver :=
  ⟨fun _ _ => .ok ⟨[[PyVal.int 7]], ["id"], 1⟩, fun _ _ => .ok ()⟩

/-- A statement is SELECT-prefixed in the sense of `execute_from_sql_file`:
`statement.upper().startswith("SELECT")`. -/
def isSelectStmt (s : String) : Bool := pyStartsWith (pyUpper s) "SELECT"

/-- The event trace `execute_from_sql_file` produces over a statement list
when every execution succeeds: fetch without commit for SELECT-prefixed
statements, execute with commit for the rest, in statement order. -/
def sqlFileTrace (stmts : List String) : List Event :=
  (stmts.map (fun s =>
    if isSelectStmt s then [Event.execute s [], Event.closeCursor]
    else [Event.execute s [], Event.commit, Event.closeCursor])).flatten

/-- The running last-SELECT accumulator after a statement list: the fetched
rows of the last SELECT-prefixed statement, or the incoming accumulator
when none is SELECT-prefixed (`f` gives each statement's reported result). -/
def lastSelectRows (f : String → ExecOk) (stmts : List String)
    (acc : Option (List Row)) : Option (List Row) :=
  match (stmts.filter isSelectStmt).getLast? with
  | some s => some ((f s).rows)
  | Option.none => acc

/-! Helper lemmas. -/

/-- A key listed among a dict row's keys has a value. -/
theorem lookup_isSome_of_mem_keys (r : PyRow) (k : String)
    (h : k ∈ r.map Prod.fst) : ∃ v, r.lookup k = some v := by
  induction r with
  | nil => simp at h
  | cons kv rest ih =>
    by_cases hk : k = kv.1
    · exact ⟨kv.2, by simp [List.lookup, hk]⟩
    · rw [List.map_cons, List.mem_cons] at h
      rcases h with h | h
      · exact absurd h hk
      · obtain ⟨v, hv⟩ := ih h
        exact ⟨v, by simp [List.lookup, beq_eq_false_iff_ne.mpr hk, hv]⟩

/-- `mapM` into `Except` succeeds when every element does. -/
theorem mapM_ok_of_forall {α β : Type} {f : α → Except PyErr β} :
    ∀ {l : List α}, (∀ a ∈ l, ∃ b, f a = .ok b) → ∃ bs, l.mapM f = .ok bs := by
  intro l
  induction l with
  | nil => exact fun _ => ⟨[], rfl⟩
  | cons a l ih =>
    intro h
    obtain ⟨b, hb⟩ := h a (List.mem_cons_self a l)
    obtain ⟨bs, hbs⟩ := ih (fun x hx => h x (List.mem_cons_of_mem a hx))
    exact ⟨b :: bs, by rw [List.mapM_cons, hb, hbs]; rfl⟩

/-- A value tuple builds successfully when the row has every column. -/
theorem rowTuple_ok_of_keys (r : PyRow) (cols : List String)
    (h : ∀ k ∈ cols, k ∈ r.map Prod.fst) :
    ∃ vs, PostgresManager.rowTuple cols r = .ok vs :=
  mapM_ok_of_forall (fun k hk => by
    obtain ⟨v, hv⟩ := lookup_isSome_of_mem_keys r k (h k hk)
    exact ⟨v, by simp [PostgresManager.dictLookup, hv]⟩)

/-- A row always has its own keys, so its own tuple builds. -/
theorem rowTuple_self_ok (r : PyRow) :
    ∃ vs, PostgresManager.rowTuple (r.map Prod.fst) r = .ok vs :=
  rowTuple_ok_of_keys r (r.map Prod.fst) (fun _ hk => hk)

/-- The comprehension form of the splitter equals its map-then-filter
reading. -/
theorem filterMap_trim_eq (l : List String) :
    l.filterMap (fun stmt => if pyTrim stmt = "" then Option.none else some (pyTrim stmt))
      = (l.map pyTrim).filter (fun s => s != "") := by
  induction l with
  | nil => rfl
  | cons a l ih =>
    by_cases h : pyTrim a = "" <;>
      simp [List.filterMap_cons, List.filter_cons, h, ih]

/-- Claim C8: for every input string, the SQL statement splitter returns
exactly the fragments obtained by splitting the content on the literal
semicolon character, each fragment stripped of surrounding whitespace,
fragments empty after stripping dropped, and the order of the remaining
fragments preserved. -/
theorem sqlreader_read_spec (content : String) :
    SQLReader.read content
      = ((pySplit (Char.ofNat 59) content).map pyTrim).filter (fun s => s != "") :=
  filterMap_trim_eq _

/-- Claim C7: an extension outside the supported set makes `get_reader`
fail with the unsupported-format error whose message lists the supported
extensions, while each supported extension maps to its reader capability. -/
theorem get_reader_spec (ext : String) (h : pyLower ext ∉ supportedExts) :
    get_reader ext = .error (.valueError (unsupportedMsg (pyLower ext))) ∧
    get_reader ".csv" = .ok .csv ∧
    get_reader ".json" = .ok .json ∧
    get_reader ".sql" = .ok .sqlReader ∧
    get_reader ".pdf" = .ok .pdf ∧
    get_reader ".xlsx" = .ok .excel ∧
    get_reader ".xls" = .ok .excel := by
  refine ⟨?_, rfl, rfl, rfl, rfl, rfl, rfl⟩
  simp only [supportedExts, readersMap, List.map, List.mem_cons, List.not_mem_nil,
    or_false, not_or] at h
  obtain ⟨h1, h2, h3, h4, h5, h6⟩ := h
  simp [get_reader, readersMap, List.lookup,
    beq_eq_false_iff_ne.mpr h1, beq_eq_false_iff_ne.mpr h2, beq_eq_false_iff_ne.mpr h3,
    beq_eq_false_iff_ne.mpr h4, beq_eq_false_iff_ne.mpr h5, beq_eq_false_iff_ne.mpr h6]

/-- Witness for C7 at the concrete unsupported extension `.txt`. -/
theorem get_reader_spec_witness :
    get_reader ".txt" = .error (.valueError (unsupportedMsg (pyLower ".txt"))) ∧
    get_reader ".csv" = .ok .csv ∧
    get_reader ".json" = .ok .json ∧
    get_reader ".sql" = .ok .sqlReader ∧
    get_reader ".pdf" = .ok .pdf ∧
    get_reader ".xlsx" = .ok .excel ∧
    get_reader ".xls" = .ok .excel :=
  get_reader_spec ".txt" (by decide)

/-- Claim C6 counterexample: on a facade that was never connected,
`disconnect` does not return `False` (its body falls through and returns
Python `None`). -/
theorem disconnect_none_not_false :
    (PostgresManager.disconnect Option.none).1 ≠ some false := by decide

/-- Claim C6 (amended): with no connection, `disconnect` is a no-op that
returns Python `None` (a falsy value, but not `False`); with an open
connection it closes it and returns `True`. -/
theorem disconnect_spec :
    PostgresManager.disconnect Option.none = (Option.none, []) ∧
    PostgresManager.disconnect (some ()) = (some true, [Event.closeConn]) :=
  ⟨rfl, rfl⟩

/-- Claim C5 (code bug): `query` with `return_df=True` over a non-empty
result does not return the executed statement's reported column names — it
reads `description` from a freshly created cursor, which is `None`, and
raises a TypeError; with `return_df=False` it does return the raw row
tuples unchanged. -/
theorem query_return_df_type_error :
    (PostgresManager.query (some ()) twoColDriver "SELECT a, b FROM t" [] true).1
      = .error (.typeError "NoneType object is not iterable") ∧
    (PostgresManager.query (some ()) twoColDriver "SELECT a, b FROM t" [] false).1
      = .ok (.inl [[PyVal.int 1, PyVal.int 2]]) :=
  ⟨rfl, rfl⟩

/-- Claim C9: a successful `insert` with `return_id=True` gets its value
from the fetch-one branch of the execution primitive, which returns before
the commit step even though the call passes `commit=True`; the call yields
the generated id while the trace contains no commit. -/
theorem insert_return_id_skips_commit (d : Driver) (table : String) (data : PyRow)
    (res : ExecOk) (v : PyVal) (vs : Row) (rest : List Row)
    (hexec : d.exec (PostgresManager.insert_query table data true)
      (data.map Prod.snd) = .ok res)
    (hrows : res.rows = (v :: vs) :: rest) :
    (PostgresManager.insert (some ()) d table data true).1 = .ok (some v) ∧
    Event.commit ∉ (PostgresManager.insert (some ()) d table data true).2 := by
  simp [PostgresManager.insert, PostgresManager.execute_query, hexec, hrows]

/-- Witness for C9: a concrete insert through a driver whose RETURNING row
is `(7,)` yields id 7 with no commit in the trace. -/
theorem insert_return_id_skips_commit_witness :
    (PostgresManager.insert (some ()) idDriver "users"
      [("name", PyVal.str "John")] true).1 = .ok (some (PyVal.int 7)) ∧
    Event.commit ∉ (PostgresManager.insert (some ()) idDriver "users"
      [("name", PyVal.str "John")] true).2 :=
  insert_return_id_skips_commit idDriver "users" [("name", PyVal.str "John")]
    ⟨[[PyVal.int 7]], ["id"], 1⟩ (PyVal.int 7) [] [] rfl rfl

/-- The chunk value list of a one-row chunk. -/
theorem batchValues_singleton (cols : List String) (r : PyRow) (vs : List PyVal)
    (h : PostgresManager.rowTuple cols r = .ok vs) :
    PostgresManager.batchValues cols [r] = .ok [vs] := by
  unfold PostgresManager.batchValues
  rw [List.mapM_cons, h]
  rfl

/-- Claim C2 (amended): with no open connection, the operations routed
through the execution primitive (insert, query, createTable, dropTable,
tableExists, getTableColumns) fail with the not-connected error; update,
delete, and insertBatch on a non-empty list call `cursor()` on the absent
connection and fail with an AttributeError instead; insertBatch on an
empty list returns 0 without touching the connection at all. -/
theorem not_connected_behavior (d : Driver) :
    (∀ (table : String) (data : PyRow) (returnId : Bool),
      PostgresManager.insert Option.none d table data returnId
        = (.error (.dbError notConnectedMsg), [])) ∧
    (∀ (qs : String) (ps : List PyVal) (rdf : Bool),
      PostgresManager.query Option.none d qs ps rdf
        = (.error (.dbError notConnectedMsg), [])) ∧
    (∀ (table : String) (cols : List (String × String)) (pk : Option String) (ine : Bool),
      PostgresManager.create_table Option.none d table cols pk ine
        = (.error (.dbError notConnectedMsg), [])) ∧
    (∀ (table : String) (ie : Bool),
      PostgresManager.drop_table Option.none d table ie
        = (.error (.dbError notConnectedMsg), [])) ∧
    (∀ table : String,
      PostgresManager.table_exists Option.none d table
        = (.error (.dbError notConnectedMsg), [])) ∧
    (∀ table : String,
      PostgresManager.get_table_columns Option.none d table
        = (.error (.dbError notConnectedMsg), [])) ∧
    (∀ (table : String) (data : PyRow) (wc : String) (wp : List PyVal),
      PostgresManager.update Option.none d table data wc wp
        = (.error (.attrError cursorAttrMsg), [])) ∧
    (∀ (table : String) (wc : String) (wp : List PyVal),
      PostgresManager.delete Option.none d table wc wp
        = (.error (.attrError cursorAttrMsg), [])) ∧
    (∀ (table : String) (rows : List PyRow) (bs : Nat), rows ≠ [] → 0 < bs →
      PostgresManager.insert_batch Option.none d table rows bs
        = (.error (.attrError cursorAttrMsg), [])) ∧
    (∀ (table : String) (bs : Nat),
      PostgresManager.insert_batch Option.none d table [] bs = (.ok 0, [])) := by
  refine ⟨fun _ _ _ => rfl, fun _ _ _ => rfl, fun _ _ _ _ => rfl, fun _ _ => rfl,
    fun _ => rfl, fun _ => rfl, fun _ _ _ _ => rfl, fun _ _ _ => rfl,
    ?_, fun _ _ => rfl⟩
  intro table rows bs hne hbs
  cases rows with
  | nil => exact absurd rfl hne
  | cons r rs =>
    cases bs with
    | zero => omega
    | succ b => rfl

/-- Claim C2 counterexample: with no open connection, `update` fails with an
AttributeError on the absent connection object, not with the not-connected
error kind the claim requires. -/
theorem update_not_connected_wrong_error :
    (PostgresManager.update Option.none failDriver "users"
      [("a", PyVal.int 1)] "id = 1" []).1 = .error (.attrError cursorAttrMsg) ∧
    (PostgresManager.update Option.none failDriver "users"
      [("a", PyVal.int 1)] "id = 1" []).1 ≠ .error (.dbError notConnectedMsg) :=
  ⟨rfl, fun h => PyErr.noConfusion (Except.error.inj h)⟩

/-- Witness for C2 at concrete operations. -/
theorem not_connected_behavior_witness :
    PostgresManager.insert Option.none failDriver "t" [("a", PyVal.int 1)] false
      = (.error (.dbError notConnectedMsg), []) ∧
    PostgresManager.update Option.none failDriver "t" [("a", PyVal.int 1)] "id = 1" []
      = (.error (.attrError cursorAttrMsg), []) ∧
    PostgresManager.insert_batch Option.none failDriver "t" [[("a", PyVal.int 1)]] 1
      = (.error (.attrError cursorAttrMsg), []) ∧
    PostgresManager.insert_batch Option.none failDriver "t" [] 5 = (.ok 0, []) := by
  obtain ⟨h1, h2, h3, h4, h5, h6, h7, h8, h9, h10⟩ := not_connected_behavior failDriver
  exact ⟨h1 "t" [("a", PyVal.int 1)] false, h7 "t" [("a", PyVal.int 1)] "id = 1" [],
    h9 "t" [[("a", PyVal.int 1)]] 1 (by decide) (by decide), h10 "t" 5⟩

/-- Claim C1 (amended): on any execution failure, the operations routed
through the execution primitive (insert, query, createTable, dropTable,
tableExists, getTableColumns, runSqlFile) roll back the current
transaction before the error surfaces; update, delete, and insertBatch
execute on their own cursor and re-raise execution errors with no
rollback. -/
theorem rollback_coverage (d : Driver) (msg : String)
    (hfail : ∀ q ps, d.exec q ps = .error msg)
    (hfailMany : ∀ q ps, d.execMany q ps = .error msg) :
    (∀ (table : String) (data : PyRow) (returnId : Bool),
      PostgresManager.insert (some ()) d table data returnId
        = (.error (.dbError msg),
           [.execute (PostgresManager.insert_query table data returnId)
              (data.map Prod.snd), .rollback, .closeCursor])) ∧
    (∀ (qs : String) (ps : List PyVal) (rdf : Bool),
      PostgresManager.query (some ()) d qs ps rdf
        = (.error (.dbError msg), [.execute qs ps, .rollback, .closeCursor])) ∧
    (∀ (table : String) (cols : List (String × String)) (pk : Option String) (ine : Bool),
      PostgresManager.create_table (some ()) d table cols pk ine
        = (.error (.dbError msg),
           [.execute (PostgresManager.create_table_query table cols pk ine) [],
            .rollback, .closeCursor])) ∧
    (∀ (table : String) (ie : Bool),
      PostgresManager.drop_table (some ()) d table ie
        = (.error (.dbError msg),
           [.execute (PostgresManager.drop_table_query table ie) [],
            .rollback, .closeCursor])) ∧
    (∀ table : String,
      PostgresManager.table_exists (some ()) d table
        = (.error (.dbError msg),
           [.execute PostgresManager.table_exists_query [PyVal.str table],
            .rollback, .closeCursor])) ∧
    (∀ table : String,
      PostgresManager.get_table_columns (some ()) d table
        = (.error (.dbError msg),
           [.execute PostgresManager.get_table_columns_query [PyVal.str table],
            .rollback, .closeCursor])) ∧
    (∀ (content s : String) (rest : List String), SQLReader.read content = s :: rest →
      PostgresManager.execute_from_sql_file (some ()) d content
        = (.error (.dbError msg), [.execute s [], .rollback, .closeCursor])) ∧
    (∀ (table : String) (data : PyRow) (wc : String) (wp : List PyVal),
      (PostgresManager.update (some ()) d table data wc wp).1 = .error (.dbError msg) ∧
      Event.rollback ∉ (PostgresManager.update (some ()) d table data wc wp).2) ∧
    (∀ (table : String) (wc : String) (wp : List PyVal),
      (PostgresManager.delete (some ()) d table wc wp).1 = .error (.dbError msg) ∧
      Event.rollback ∉ (PostgresManager.delete (some ()) d table wc wp).2) ∧
    (∀ (table : String) (r : PyRow),
      (PostgresManager.insert_batch (some ()) d table [r] 1).1 = .error (.dbError msg) ∧
      Event.rollback ∉ (PostgresManager.insert_batch (some ()) d table [r] 1).2) := by
  refine ⟨?_, ?_, ?_, ?_, ?_, ?_, ?_, ?_, ?_, ?_⟩
  · intro table data returnId
    simp [PostgresManager.insert, PostgresManager.execute_query, hfail]
  · intro qs ps rdf
    simp [PostgresManager.query, PostgresManager.execute_query, hfail]
  · intro table cols pk ine
    simp [PostgresManager.create_table, PostgresManager.execute_query, hfail]
  · intro table ie
    simp [PostgresManager.drop_table, PostgresManager.execute_query, hfail]
  · intro table
    simp [PostgresManager.table_exists, PostgresManager.execute_query, hfail]
  · intro table
    simp [PostgresManager.get_table_columns, PostgresManager.execute_query, hfail]
  · intro content s rest hread
    by_cases hsel : pyStartsWith (pyUpper s) "SELECT" <;>
      simp [PostgresManager.execute_from_sql_file, PostgresManager.sql_file_loop,
        hread, hsel, PostgresManager.execute_query, hfail]
  · intro table data wc wp
    exact ⟨by simp [PostgresManager.update, hfail], by simp [PostgresManager.update, hfail]⟩
  · intro table wc wp
    exact ⟨by simp [PostgresManager.delete, hfail], by simp [PostgresManager.delete, hfail]⟩
  · intro table r
    obtain ⟨vs, hvs⟩ := rowTuple_self_ok r
    have hbv := batchValues_singleton (r.map Prod.fst) r vs hvs
    exact ⟨by simp [PostgresManager.insert_batch, PostgresManager.insert_batch_go, hbv, hfailMany],
      by simp [PostgresManager.insert_batch, PostgresManager.insert_batch_go, hbv, hfailMany]⟩

/-- Claim C1 counterexample: a failing `update` execution re-raises with no
rollback in the trace. -/
theorem update_failure_no_rollback :
    (PostgresManager.update (some ()) failDriver "users"
      [("email", PyVal.str "x")] "id = %s" [PyVal.int 1]).1 = .error (.dbError "boom") ∧
    Event.rollback ∉ (PostgresManager.update (some ()) failDriver "users"
      [("email", PyVal.str "x")] "id = %s" [PyVal.int 1]).2 :=
  ⟨rfl, by decide⟩

/-- Witness for C1 at concrete operations on the all-failing driver. -/
theorem rollback_coverage_witness :
    PostgresManager.insert (some ()) failDriver "t" [("a", PyVal.int 1)] false
      = (.error (.dbError "boom"),
         [.execute (PostgresManager.insert_query "t" [("a", PyVal.int 1)] false)
            [PyVal.int 1], .rollback, .closeCursor]) ∧
    (PostgresManager.delete (some ()) failDriver "t" "id = 1" []).1
      = .error (.dbError "boom") ∧
    Event.rollback ∉ (PostgresManager.delete (some ()) failDriver "t" "id = 1" []).2 := by
  obtain ⟨h1, h2, h3, h4, h5, h6, h7, h8, h9, h10⟩ :=
    rollback_coverage failDriver "boom" (fun _ _ => rfl) (fun _ _ => rfl)
  exact ⟨h1 "t" [("a", PyVal.int 1)] false, (h9 "t" "id = 1" []).1, (h9 "t" "id = 1" []).2⟩

/-- One step of the last-SELECT accumulator. -/
theorem lastSelectRows_cons (f : String → ExecOk) (s : String) (rest : List String)
    (acc : Option (List Row)) :
    lastSelectRows f (s :: rest) acc
      = if isSelectStmt s then lastSelectRows f rest (some ((f s).rows))
        else lastSelectRows f rest acc := by
  by_cases hsel : isSelectStmt s
  · cases hrf : rest.filter isSelectStmt with
    | nil => simp [lastSelectRows, List.filter_cons, hsel, hrf]
    | cons b bs =>
      simp only [lastSelectRows, List.filter_cons, hsel, if_true, hrf,
        List.getLast?_cons_cons]
      cases hgl : (b :: bs).getLast? with
      | none =>
        have h2 := (List.getLast?_isSome (l := b :: bs)).mpr (by simp)
        rw [hgl] at h2
        simp at h2
      | some x => rfl
  · simp [lastSelectRows, List.filter_cons, hsel]

/-- One step of the expected SQL-file event trace. -/
theorem sqlFileTrace_cons (s : String) (rest : List String) :
    sqlFileTrace (s :: rest)
      = (if isSelectStmt s then [Event.execute s [], Event.closeCursor]
         else [Event.execute s [], Event.commit, Event.closeCursor]) ++ sqlFileTrace rest := by
  simp [sqlFileTrace]

/-- The statement loop of `execute_from_sql_file`, fully characterized when
every execution succeeds. -/
theorem sql_file_loop_trace (d : Driver) (f : String → ExecOk)
    (hd : ∀ q, d.exec q [] = .ok (f q)) :
    ∀ (stmts : List String) (acc : Option (List Row)),
    PostgresManager.sql_file_loop (some ()) d stmts acc
      = (.ok (lastSelectRows f stmts acc), sqlFileTrace stmts) := by
  intro stmts
  induction stmts with
  | nil => intro acc; rfl
  | cons s rest ih =>
    intro acc
    rw [lastSelectRows_cons, sqlFileTrace_cons]
    by_cases hsel : isSelectStmt s
    · have hsel' : pyStartsWith (pyUpper s) "SELECT" = true := hsel
      simp only [PostgresManager.sql_file_loop, PostgresManager.execute_query, hd s,
        hsel', if_true]
      rw [ih (some ((f s).rows))]
      simp [hsel]
    · have hsel' : pyStartsWith (pyUpper s) "SELECT" = false := by
        simpa [isSelectStmt] using hsel
      simp only [PostgresManager.sql_file_loop, PostgresManager.execute_query, hd s,
        hsel', Bool.false_eq_true, if_false]
      rw [ih acc]
      simp [hsel]

/-- Claim C4: `execute_from_sql_file` executes the statements obtained from
the file in order — SELECT-prefixed ones (case-insensitive literal prefix
match) are fetched without commit and their result replaces the running
last-results value, all others are executed with commit — and it returns
the last fetched result set, or an empty result when no statement was
SELECT-prefixed. -/
theorem execute_from_sql_file_spec (d : Driver) (f : String → ExecOk)
    (hd : ∀ q, d.exec q [] = .ok (f q)) (content : String) :
    PostgresManager.execute_from_sql_file (some ()) d content
      = (.ok ((lastSelectRows f (SQLReader.read content) Option.none).getD []),
         sqlFileTrace (SQLReader.read content)) := by
  unfold PostgresManager.execute_from_sql_file
  rw [sql_file_loop_trace d f hd]

/-- Witness for C4: a concrete file with one DDL statement and two SELECTs
returns only the last SELECT's rows, with the DDL committed first. -/
theorem execute_from_sql_file_spec_witness :
    PostgresManager.execute_from_sql_file (some ()) echoDriver
        "CREATE TABLE t(x INT); SELECT 1; SELECT 2"
      = (.ok [[PyVal.str "SELECT 2"]],
         [.execute "CREATE TABLE t(x INT)" [], .commit, .closeCursor,
          .execute "SELECT 1" [], .closeCursor,
          .execute "SELECT 2" [], .closeCursor]) := by
  have h := execute_from_sql_file_spec echoDriver echoOk (fun _ => rfl)
    "CREATE TABLE t(x INT); SELECT 1; SELECT 2"
  rw [h]
  rfl

/-- One step of the chunk partition. -/
theorem chunksList_cons {α : Type} (b : Nat) (x : α) (xs : List α) :
    chunksList (b + 1) (x :: xs) = (x :: xs.take b) :: chunksList (b + 1) (xs.drop b) := by
  simp [chunksList]

/-- The head of a non-empty list is one of its elements. -/
theorem headI_mem {α : Type} [Inhabited α] {c : List α} (h : c ≠ []) : c.headI ∈ c := by
  cases c with
  | nil => exact absurd rfl h
  | cons a l => exact List.mem_cons_self a l

/-- Concatenating the chunks gives back the list (bounded-length form). -/
theorem chunksList_flatten_aux {α : Type} (b : Nat) :
    ∀ (n : Nat) (l : List α), l.length ≤ n → (chunksList (b + 1) l).flatten = l := by
  intro n
  induction n with
  | zero =>
    intro l hl
    have : l = [] := List.length_eq_zero.mp (Nat.le_zero.mp hl)
    subst this
    simp [chunksList]
  | succ n ih =>
    intro l hl
    cases l with
    | nil => simp [chunksList]
    | cons x xs =>
      rw [chunksList_cons, List.flatten_cons,
        ih (xs.drop b) (by simp only [List.length_drop]; simp at hl; omega)]
      simp [List.take_append_drop]

/-- Concatenating the chunks gives back the list. -/
theorem chunksList_flatten {α : Type} (bs : Nat) (hbs : 0 < bs) (l : List α) :
    (chunksList bs l).flatten = l := by
  cases bs with
  | zero => omega
  | succ b => exact chunksList_flatten_aux b l.length l le_rfl

/-- Every chunk is non-empty (bounded-length form). -/
theorem chunksList_ne_nil_aux {α : Type} (b : Nat) :
    ∀ (n : Nat) (l : List α), l.length ≤ n → ∀ c ∈ chunksList (b + 1) l, c ≠ [] := by
  intro n
  induction n with
  | zero =>
    intro l hl c hc
    have : l = [] := List.length_eq_zero.mp (Nat.le_zero.mp hl)
    subst this
    simp [chunksList] at hc
  | succ n ih =>
    intro l hl c hc
    cases l with
    | nil => simp [chunksList] at hc
    | cons x xs =>
      rw [chunksList_cons, List.mem_cons] at hc
      rcases hc with hc | hc
      · subst hc; simp
      · exact ih (xs.drop b) (by simp only [List.length_drop]; simp at hl; omega) c hc

/-- Every chunk is non-empty. -/
theorem chunksList_ne_nil {α : Type} {bs : Nat} (hbs : 0 < bs) (l : List α)
    {c : List α} (hc : c ∈ chunksList bs l) : c ≠ [] := by
  cases bs with
  | zero => omega
  | succ b => exact chunksList_ne_nil_aux b l.length l le_rfl c hc

/-- The number of chunks is the ceiling of the length over the chunk size
(bounded-length form, subtraction-free). -/
theorem chunksList_length_aux {α : Type} (b : Nat) :
    ∀ (n : Nat) (l : List α), l.length ≤ n →
    (chunksList (b + 1) l).length = (l.length + b) / (b + 1) := by
  intro n
  induction n with
  | zero =>
    intro l hl
    have : l = [] := List.length_eq_zero.mp (Nat.le_zero.mp hl)
    subst this
    simp [chunksList, Nat.div_eq_of_lt (show b < b + 1 by omega)]
  | succ n ih =>
    intro l hl
    cases l with
    | nil => simp [chunksList, Nat.div_eq_of_lt (show b < b + 1 by omega)]
    | cons x xs =>
      rw [chunksList_cons, List.length_cons,
        ih (xs.drop b) (by simp only [List.length_drop]; simp at hl; omega)]
      rw [List.length_drop, List.length_cons]
      by_cases hm : xs.length ≤ b
      · have h1 : xs.length - b = 0 := by omega
        have h2 : (0 + b) / (b + 1) = 0 := Nat.div_eq_of_lt (by omega)
        have h3 : (xs.length + 1 + b) / (b + 1) = 1 := by
          apply Nat.div_eq_of_lt_le <;> omega
        rw [h1, h2, h3]
      · have h4 : xs.length - b + b = xs.length := by omega
        have h5 : xs.length + 1 + b = xs.length + (b + 1) := by omega
        rw [h4, h5, Nat.add_div_right _ (by omega)]

/-- The number of chunks is `ceil (length / bs)`. -/
theorem chunksList_length {α : Type} {bs : Nat} (hbs : 0 < bs) (l : List α) :
    (chunksList bs l).length = (l.length + bs - 1) / bs := by
  cases bs with
  | zero => omega
  | succ b =>
    rw [chunksList_length_aux b l.length l le_rfl,
      show l.length + (b + 1) - 1 = l.length + b from by omega]

/-- The chunk loop, fully characterized when the driver succeeds and every
chunk's value lists build: the result counts every row, and the trace is
the concatenation of the per-chunk traces in chunk order. -/
theorem insert_batch_go_trace (d : Driver) (table : String)
    (hok : ∀ q ps, d.execMany q ps = .ok ()) (b : Nat) :
    ∀ (n : Nat) (rows : List PyRow), rows.length ≤ n →
    (∀ c ∈ chunksList (b + 1) rows,
      ∃ vs, PostgresManager.batchValues (chunkColumns c) c = .ok vs) →
    PostgresManager.insert_batch_go d table (b + 1) rows
      = (.ok rows.length, ((chunksList (b + 1) rows).map (chunkEvents table)).flatten) := by
  intro n
  induction n with
  | zero =>
    intro rows hl _
    have : rows = [] := List.length_eq_zero.mp (Nat.le_zero.mp hl)
    subst this
    simp [PostgresManager.insert_batch_go, chunksList]
  | succ n ih =>
    intro rows hl hv
    cases rows with
    | nil => simp [PostgresManager.insert_batch_go, chunksList]
    | cons r rs =>
      obtain ⟨vs, hvs⟩ := hv (r :: rs.take b)
        (by rw [chunksList_cons]; exact List.mem_cons_self _ _)
      have hcc : chunkColumns (r :: rs.take b) = r.map Prod.fst := rfl
      rw [hcc] at hvs
      have hrec := ih (rs.drop b) (by simp only [List.length_drop]; simp at hl; omega)
        (fun c hc => hv c (by rw [chunksList_cons]; exact List.mem_cons_of_mem _ hc))
      simp only [PostgresManager.insert_batch_go, hvs, hok, hrec, chunksList_cons,
        List.map_cons, List.flatten_cons]
      rw [Prod.mk.injEq]
      refine ⟨?_, ?_⟩
      · congr 1
        simp only [List.length_cons, List.length_take, List.length_drop]
        simp at hl
        omega
      · simp [chunkEvents, chunkValsD, chunkColumns, hvs]

/-- Claim C3: `insert_batch` on a list of rows with uniform key sets and a
positive batch size partitions the rows into consecutive chunks of the
batch size, issues exactly `ceil (n / batchSize)` execution calls with a
commit after each chunk, and returns the input length; the empty list is
the zero-chunk instance, returning 0 with no execution call. -/
theorem insert_batch_spec (d : Driver) (table : String) (rows : List PyRow)
    (bs : Nat) (hbs : 0 < bs)
    (huni : ∀ r ∈ rows, r.map Prod.fst = rows.headI.map Prod.fst)
    (hok : ∀ q ps, d.execMany q ps = .ok ()) :
    (PostgresManager.insert_batch (some ()) d table rows bs).1 = .ok rows.length ∧
    (PostgresManager.insert_batch (some ()) d table rows bs).2
      = ((chunksList bs rows).map (chunkEvents table)).flatten ∧
    (chunksList bs rows).length = (rows.length + bs - 1) / bs ∧
    (PostgresManager.insert_batch (some ()) d table rows bs).2.countP
        (fun e => e.tag == EventTag.executeMany) = (rows.length + bs - 1) / bs := by
  have hlen := chunksList_length hbs rows
  cases bs with
  | zero => omega
  | succ b =>
    cases rows with
    | nil =>
      have hz : (b : Nat) / (b + 1) = 0 := Nat.div_eq_of_lt (by omega)
      refine ⟨rfl, by simp [PostgresManager.insert_batch, chunksList], ?_, ?_⟩
      · simp [chunksList, hz]
      · simp [PostgresManager.insert_batch, hz]
    | cons r rs =>
      have hv : ∀ c ∈ chunksList (b + 1) (r :: rs),
          ∃ vs, PostgresManager.batchValues (chunkColumns c) c = .ok vs := by
        intro c hc
        have hcne : c ≠ [] := chunksList_ne_nil (by omega) (r :: rs) hc
        have hsub : ∀ x ∈ c, x ∈ r :: rs := by
          intro x hx
          rw [← chunksList_flatten (b + 1) (by omega) (r :: rs)]
          exact List.mem_flatten.mpr ⟨c, hc, hx⟩
        have hhead : c.headI ∈ r :: rs := hsub _ (headI_mem hcne)
        refine mapM_ok_of_forall (fun x hx => ?_)
        apply rowTuple_ok_of_keys
        intro k hk
        have e1 : c.headI.map Prod.fst = (r :: rs).headI.map Prod.fst := huni _ hhead
        have e2 : x.map Prod.fst = (r :: rs).headI.map Prod.fst := huni _ (hsub x hx)
        rw [e2, ← e1]
        simpa [chunkColumns] using hk
      have htr := insert_batch_go_trace d table hok b (r :: rs).length (r :: rs) le_rfl hv
      have hib : PostgresManager.insert_batch (some ()) d table (r :: rs) (b + 1)
          = PostgresManager.insert_batch_go d table (b + 1) (r :: rs) := rfl
      refine ⟨?_, ?_, hlen, ?_⟩
      · rw [hib, htr]
      · rw [hib, htr]
      · rw [hib, htr]
        show (((chunksList (b + 1) (r :: rs)).map (chunkEvents table)).flatten).countP _
          = _
        rw [List.countP_flatten, List.map_map]
        have hone : ∀ c : List PyRow,
            ((chunkEvents table c).countP (fun e => e.tag == EventTag.executeMany)) = 1 :=
          fun c => rfl
        rw [show ((List.countP (fun e => e.tag == EventTag.executeMany)) ∘ chunkEvents table)
            = (fun _ : List PyRow => 1) from funext hone]
        simpa using hlen

/-- Witness for C3: three one-column rows at batch size 2 report 3 inserted
rows over 2 execution calls. -/
theorem insert_batch_spec_witness :
    (PostgresManager.insert_batch (some ()) echoDriver "t"
      [[("a", PyVal.int 1)], [("a", PyVal.int 2)], [("a", PyVal.int 3)]] 2).1 = .ok 3 ∧
    (PostgresManager.insert_batch (some ()) echoDriver "t"
      [[("a", PyVal.int 1)], [("a", PyVal.int 2)], [("a", PyVal.int 3)]] 2).2.countP
        (fun e => e.tag == EventTag.executeMany) = 2 := by
  have h := insert_batch_spec echoDriver "t"
    [[("a", PyVal.int 1)], [("a", PyVal.int 2)], [("a", PyVal.int 3)]] 2
    (by decide) (by decide) (fun _ _ => rfl)
  exact ⟨h.1, h.2.2.2⟩

/-- `mapM` into `Except` on the empty list. -/
theorem exceptMapM_nil {α β : Type} (f : α → Except PyErr β) :
    List.mapM f ([] : List α) = .ok [] := rfl

/-- `mapM` into `Except`, one step, as an explicit case split. -/
theorem exceptMapM_cons {α β : Type} (f : α → Except PyErr β) (a : α) (l : List α) :
    List.mapM f (a :: l)
      = match f a with
        | .error e => .error e
        | .ok b =>
          match List.mapM f l with
          | .error e => .error e
          | .ok bs => .ok (b :: bs) := by
  rw [List.mapM_cons]
  cases hfa : f a with
  | error e => rfl
  | ok b =>
    cases hl : List.mapM f l with
    | error e => rfl
    | ok bs => rfl

/-- A missing key among the columns makes the value tuple fail with the
first missing column's key error. -/
theorem rowTuple_first_missing (r : PyRow) :
    ∀ (cols : List String), (∃ k ∈ cols, r.lookup k = Option.none) →
    ∃ c ∈ cols, r.lookup c = Option.none ∧
      PostgresManager.rowTuple cols r = .error (.keyError c) := by
  intro cols
  induction cols with
  | nil =>
    rintro ⟨k, hk, _⟩
    simp at hk
  | cons k0 ks ih =>
    rintro ⟨k, hk, hkn⟩
    cases h0 : r.lookup k0 with
    | none =>
      refine ⟨k0, List.mem_cons_self _ _, h0, ?_⟩
      have hd : PostgresManager.dictLookup r k0 = .error (.keyError k0) := by
        simp [PostgresManager.dictLookup, h0]
      show List.mapM (PostgresManager.dictLookup r) (k0 :: ks) = _
      rw [exceptMapM_cons, hd]
    | some v =>
      have hks : ∃ k ∈ ks, r.lookup k = Option.none := by
        rcases List.mem_cons.mp hk with he | he
        · subst he
          rw [h0] at hkn
          exact absurd hkn (by simp)
        · exact ⟨k, he, hkn⟩
      obtain ⟨c, hc, hcn, hrt⟩ := ih hks
      refine ⟨c, List.mem_cons_of_mem _ hc, hcn, ?_⟩
      have hd : PostgresManager.dictLookup r k0 = .ok v := by
        simp [PostgresManager.dictLookup, h0]
      have hrt2 : List.mapM (PostgresManager.dictLookup r) ks
          = .error (.keyError c) := hrt
      show List.mapM (PostgresManager.dictLookup r) (k0 :: ks) = _
      rw [exceptMapM_cons, hd, hrt2]

/-- Looking up a key present in the front dict ignores appended entries. -/
theorem lookup_append_of_mem_keys (r1 extra : PyRow) (k : String)
    (h : k ∈ r1.map Prod.fst) : (r1 ++ extra).lookup k = r1.lookup k := by
  induction r1 with
  | nil => simp at h
  | cons kv rest ih =>
    by_cases hk : k = kv.1
    · simp [List.lookup, hk]
    · rw [List.map_cons, List.mem_cons] at h
      rcases h with h | h
      · exact absurd h hk
      · simp [List.lookup, beq_eq_false_iff_ne.mpr hk, ih h]

/-- Entries beyond the column list do not change a row's value tuple. -/
theorem rowTuple_append_extra (r1 extra : PyRow) :
    ∀ (cols : List String), (∀ k ∈ cols, k ∈ r1.map Prod.fst) →
    PostgresManager.rowTuple cols (r1 ++ extra) = PostgresManager.rowTuple cols r1 := by
  intro cols
  induction cols with
  | nil => intro _; rfl
  | cons k ks ih =>
    intro h
    have hk := h k (List.mem_cons_self _ _)
    have hdl : PostgresManager.dictLookup (r1 ++ extra) k = PostgresManager.dictLookup r1 k := by
      simp [PostgresManager.dictLookup, lookup_append_of_mem_keys r1 extra k hk]
    simp only [PostgresManager.rowTuple, List.mapM_cons] at ih ⊢
    rw [hdl, ih (fun k2 hk2 => h k2 (List.mem_cons_of_mem _ hk2))]

/-- Claim C10: the column list of each `insert_batch` chunk is recomputed
from that chunk's own first row; a row in a chunk missing one of those
keys raises a key error before any database execution for that chunk; keys
a row has beyond the column set are silently ignored. -/
theorem insert_batch_chunk_behavior (d : Driver)
    (hok : ∀ q ps, d.execMany q ps = .ok ()) :
    (∀ (table : String) (r1 r2 : PyRow), ∃ v1 v2,
      (PostgresManager.insert_batch (some ()) d table [r1, r2] 1).2
        = [.executeMany (PostgresManager.insert_batch_query table (r1.map Prod.fst)) [v1],
           .commit, .closeCursor,
           .executeMany (PostgresManager.insert_batch_query table (r2.map Prod.fst)) [v2],
           .commit, .closeCursor]) ∧
    (∀ (table : String) (r1 r2 : PyRow),
      (∃ k ∈ r1.map Prod.fst, r2.lookup k = Option.none) →
      ∃ c ∈ r1.map Prod.fst, r2.lookup c = Option.none ∧
        PostgresManager.insert_batch (some ()) d table [r1, r2] 2
          = (.error (.keyError c), [])) ∧
    (∀ (table : String) (r1 extra : PyRow),
      PostgresManager.insert_batch (some ()) d table [r1, r1 ++ extra] 2
        = PostgresManager.insert_batch (some ()) d table [r1, r1] 2) := by
  refine ⟨?_, ?_, ?_⟩
  · intro table r1 r2
    obtain ⟨vs1, h1⟩ := rowTuple_self_ok r1
    obtain ⟨vs2, h2⟩ := rowTuple_self_ok r2
    have hb1 := batchValues_singleton (r1.map Prod.fst) r1 vs1 h1
    have hb2 := batchValues_singleton (r2.map Prod.fst) r2 vs2 h2
    refine ⟨vs1, vs2, ?_⟩
    simp [PostgresManager.insert_batch, PostgresManager.insert_batch_go, hb1, hb2, hok]
  · intro table r1 r2 hmiss
    obtain ⟨vs1, h1⟩ := rowTuple_self_ok r1
    obtain ⟨c, hc, hcn, hrt⟩ := rowTuple_first_missing r2 (r1.map Prod.fst) hmiss
    refine ⟨c, hc, hcn, ?_⟩
    have hbv : PostgresManager.batchValues (r1.map Prod.fst) [r1, r2]
        = .error (.keyError c) := by
      show List.mapM (PostgresManager.rowTuple (r1.map Prod.fst)) [r1, r2] = _
      rw [exceptMapM_cons, h1, exceptMapM_cons, hrt]
    simp [PostgresManager.insert_batch, PostgresManager.insert_batch_go, hbv]
  · intro table r1 extra
    obtain ⟨vs1, h1⟩ := rowTuple_self_ok r1
    have hrt : PostgresManager.rowTuple (r1.map Prod.fst) (r1 ++ extra)
        = PostgresManager.rowTuple (r1.map Prod.fst) r1 :=
      rowTuple_append_extra r1 extra (r1.map Prod.fst) (fun _ hk => hk)
    have hA : PostgresManager.batchValues (r1.map Prod.fst) [r1, r1 ++ extra]
        = .ok [vs1, vs1] := by
      show List.mapM (PostgresManager.rowTuple (r1.map Prod.fst)) [r1, r1 ++ extra] = _
      rw [exceptMapM_cons, h1, exceptMapM_cons, hrt, h1]
      rfl
    have hB : PostgresManager.batchValues (r1.map Prod.fst) [r1, r1]
        = .ok [vs1, vs1] := by
      show List.mapM (PostgresManager.rowTuple (r1.map Prod.fst)) [r1, r1] = _
      rw [exceptMapM_cons, h1, exceptMapM_cons, h1]
      rfl
    simp [PostgresManager.insert_batch, PostgresManager.insert_batch_go, hA, hB, hok]

/-- Witness for C10: two rows with different keys at batch size 1 get their
own per-chunk column lists; a row missing the first row's key fails with
its key error and no execution; extra keys on the second row change
nothing. -/
theorem insert_batch_chunk_behavior_witness :
    (∃ v1 v2,
      (PostgresManager.insert_batch (some ()) echoDriver "t"
        [[("a", PyVal.int 1)], [("b", PyVal.int 2)]] 1).2
        = [.executeMany (PostgresManager.insert_batch_query "t" ["a"]) [v1],
           .commit, .closeCursor,
           .executeMany (PostgresManager.insert_batch_query "t" ["b"]) [v2],
           .commit, .closeCursor]) ∧
    (∃ c ∈ (["a"] : List String), ([("b", PyVal.int 2)] : PyRow).lookup c = Option.none ∧
      PostgresManager.insert_batch (some ()) echoDriver "t"
        [[("a", PyVal.int 1)], [("b", PyVal.int 2)]] 2
        = (.error (.keyError c), [])) ∧
    PostgresManager.insert_batch (some ()) echoDriver "t"
        [[("a", PyVal.int 1)], [("a", PyVal.int 1), ("x", PyVal.null)]] 2
      = PostgresManager.insert_batch (some ()) echoDriver "t"
        [[("a", PyVal.int 1)], [("a", PyVal.int 1)]] 2 := by
  have h := insert_batch_chunk_behavior echoDriver (fun _ _ => rfl)
  exact ⟨h.1 "t" [("a", PyVal.int 1)] [("b", PyVal.int 2)],
    h.2.1 "t" [("a", PyVal.int 1)] [("b", PyVal.int 2)] ⟨"a", by decide, by decide⟩,
    h.2.2 "t" [("a", PyVal.int 1)] [("x", PyVal.null)]⟩

end Pypostgres
